import Mathlib

/-!
# USB mass-storage / FatFS arbitration core of `usbd_msc/main.c`

A shallow embedding of the coordination code of `main.c`: the key-event mask
`m_key_events`, the connection flag `m_usb_connected`, the USB notification
handler `usbd_user_ev_handler`, the button handler `button_event_handler`, the
filesystem work items (`test_write`, `fatfs_ls`, `fatfs_mkfs`,
`fatfs_file_create`), `fatfs_init` / `fatfs_uninit` and the passes of the main
loop (drain and submissions, USB event queue, `app_sched_execute`).

The USB stack, FatFS, the disk layer, the scheduler and the logger are external
libraries.  Every call into them is recorded in a trace of `Call`s; the value an
external call returns is read from an `Ext` record supplied by the caller of the
model; and the only facts kept about the libraries are four flags:

* `usbd_enabled`  : set by `app_usbd_enable`, cleared by `app_usbd_disable`
  (it is what `nrf_drv_usbd_is_enabled()` reads);
* `usbd_started`  : set by `app_usbd_start`, cleared by `app_usbd_stop`;
* `fs_mounted`    : set by an `f_mount` that returns `FR_OK`, cleared by a failed
  `f_mount`, by the `memset` of `m_filesystem` and by `disk_uninitialize(0)`;
* `sched_queue`   : the work items accepted by `app_sched_event_put`.
-/

namespace UsbdMsc

/-! ## Constants -/

def BTN_RANDOM_FILE : Nat := 0
def BTN_LIST_DIR : Nat := 1
def BTN_MKFS : Nat := 2

def KEY_EV_RANDOM_FILE_MSK : Nat := 1 <<< BTN_RANDOM_FILE
def KEY_EV_LIST_DIR_MSK : Nat := 1 <<< BTN_LIST_DIR
def KEY_EV_MKFS_MSK : Nat := 1 <<< BTN_MKFS

/-- Queue size used when `SVCALL_AS_NORMAL_FUNCTION` is not defined. -/
def SCHED_QUEUE_SIZE : Nat := 10

/-- Range of a `uint32_t`. -/
def U32 : Nat := 2 ^ 32

def LED_USB_RESUME : Nat := 0
def LED_USB_START : Nat := 1

/-- Value of `APP_BUTTON_PUSH` in the button library. -/
def APP_BUTTON_PUSH : Nat := 1

/-- FatFS result `FR_OK`. -/
def FR_OK : Nat := 0
/-- FatFS result `FR_NO_FILESYSTEM`. -/
def FR_NO_FILESYSTEM : Nat := 13
/-- FatFS attribute bit of a directory. -/
def AM_DIR : Nat := 0x10
def FA_READ : Nat := 0x01
def FA_WRITE : Nat := 0x02
def FA_CREATE_ALWAYS : Nat := 0x08
def FA_OPEN_ALWAYS : Nat := 0x10
def FA_OPEN_APPEND : Nat := 0x30

/-! ## Data model -/

/-- The notifications `usbd_user_ev_handler` switches on; `other` stands for
every value that reaches the `default` branch. -/
inductive app_usbd_event_type_t where
  | APP_USBD_EVT_DRV_SUSPEND
  | APP_USBD_EVT_DRV_RESUME
  | APP_USBD_EVT_STARTED
  | APP_USBD_EVT_STOPPED
  | APP_USBD_EVT_POWER_DETECTED
  | APP_USBD_EVT_POWER_REMOVED
  | APP_USBD_EVT_POWER_READY
  | other
  deriving DecidableEq, Repr

/-- The pin numbers `button_event_handler` switches on; `other` stands for every
pin that reaches the `default` branch. -/
inductive Pin where
  | USB_TOGGLE_BUTTON
  | RANDOM_FILE_BUTTON
  | LIST_DIR_MSK_BUTTON
  | MKFS_BUTTON
  | other
  deriving DecidableEq, Repr

/-- The functions the main loop hands to `app_sched_event_put`. -/
inductive WorkItem where
  | test_write
  | fatfs_ls
  | fatfs_mkfs
  deriving DecidableEq, Repr

/-- The fields of `FILINFO` read by `fatfs_ls`. -/
structure FILINFO where
  fname : List Nat
  fattrib : Nat
  fsize : Nat
  deriving DecidableEq, Repr

/-- The file names passed to `f_open`. -/
inductive FileName where
  | log_data_txt
  | random_txt (r : Nat)
  deriving DecidableEq, Repr

/-- The log lines of `main.c`, one constructor per `NRF_LOG_*` call site. -/
inductive Msg where
  | initializing_disk
  | disk_initialization_failed
  | mounting_volume
  | mount_failed_no_filesystem
  | mount_failed_code (r : Nat)
  | usb_busy
  | creating_filesystem
  | mkfs_failed
  | mount_failed
  | done
  | unable_to_open_log_data (r : Nat)
  | f_close_failed (i : Nat) (record : Nat)
  | wrote_data_record (record : Nat)
  | listing_directory
  | directory_listing_failed (r : Nat)
  | directory_read_failed (r : Nat)
  | dir_line (name : List Nat)
  | file_line (size : Nat) (name : List Nat)
  | entries_count (n : Nat)
  | creating_random_file (r : Nat)
  | unable_to_create_file (r : Nat)
  | unable_to_close_file (r : Nat)
  | created_done
  | uninitializing_disk
  | evt_drv_suspend
  | evt_drv_resume
  | evt_started
  | evt_stopped
  | usb_power_detected
  | usb_power_removed
  | usb_ready
  | enable_the_usb
  | disable_the_usb
  | press_usb_toggle (connected : Bool)
  | press_random_file_button
  | press_mkfs_button
  | example_started
  deriving DecidableEq, Repr

/-- A call into an external library, in the order the code makes them. -/
inductive Call where
  | bsp_board_led_off (led : Nat)
  | bsp_board_led_on (led : Nat)
  | bsp_board_leds_off
  | app_usbd_enable
  | app_usbd_disable
  | app_usbd_start
  | app_usbd_stop
  | memset_m_filesystem
  | diskio_blockdev_register
  | disk_initialize_0
  | disk_uninitialize_0
  | f_mount
  | f_mkfs
  | f_open (file : FileName) (mode : Nat)
  | f_tell
  | f_write (record : Nat)
  | f_close
  | f_opendir
  | f_readdir
  | rand
  | log (m : Msg)
  | log_flush
  | app_sched_event_put (w : WorkItem)
  | app_error_handler (pin : Pin)
  deriving DecidableEq, Repr

/-- What the external libraries return during one handler or work item. -/
structure Ext where
  /-- `DSTATUS` returned by `disk_initialize(0)`. -/
  disk_status : Nat
  /-- `FRESULT` returned by `f_mount`. -/
  f_mount_res : Nat
  /-- `FRESULT` returned by `f_mkfs`. -/
  f_mkfs_res : Nat
  /-- `FRESULT` returned by `f_open`. -/
  f_open_res : Nat
  /-- `FRESULT` returned by `f_close`. -/
  f_close_res : Nat
  /-- `FRESULT` returned by `f_opendir`. -/
  f_opendir_res : Nat
  /-- Results of the successive `f_readdir` calls; once they are used up
  `f_readdir` returns `FR_OK` with an empty name. -/
  dir_reads : List (Nat × FILINFO)
  /-- Value returned by `rand()`. -/
  rand_val : Nat
  deriving DecidableEq, Repr

/-- The globals of `main.c` together with the flags kept about the libraries. -/
structure State where
  m_key_events : Nat
  m_usb_connected : Bool
  record_number : Nat
  usbd_enabled : Bool
  usbd_started : Bool
  fs_mounted : Bool
  sched_queue : List WorkItem
  deriving DecidableEq, Repr

/-! ## Atomic operations on `m_key_events` -/

/-- `nrf_atomic_u32_or(&m_key_events, mask)`: stores the OR, returns the new value. -/
def nrf_atomic_u32_or (mask : Nat) (s : State) : Nat × State :=
  let v := (s.m_key_events ||| mask) % U32
  (v, { s with m_key_events := v })

/-- `nrf_atomic_u32_fetch_store(&m_key_events, value)`: stores `value`, returns
the old value. -/
def nrf_atomic_u32_fetch_store (value : Nat) (s : State) : Nat × State :=
  (s.m_key_events, { s with m_key_events := value % U32 })

/-! ## Filesystem functions -/

def fatfs_init (x : Ext) (s : State) : Bool × State × List Call :=
  let s1 := { s with fs_mounted := false }
  let t1 := [Call.memset_m_filesystem, Call.diskio_blockdev_register,
    Call.log Msg.initializing_disk, Call.disk_initialize_0]
  if x.disk_status ≠ 0 then
    (false, s1, t1 ++ [Call.log Msg.disk_initialization_failed])
  else
    let t2 := t1 ++ [Call.log Msg.mounting_volume, Call.f_mount]
    if x.f_mount_res ≠ FR_OK then
      if x.f_mount_res = FR_NO_FILESYSTEM then
        (false, s1, t2 ++ [Call.log Msg.mount_failed_no_filesystem])
      else
        (false, s1, t2 ++ [Call.log (Msg.mount_failed_code x.f_mount_res)])
    else
      (true, { s1 with fs_mounted := true }, t2)

def fatfs_mkfs (x : Ext) (s : State) : State × List Call :=
  if s.m_usb_connected then
    (s, [Call.log Msg.usb_busy])
  else
    let t1 := [Call.log Msg.creating_filesystem, Call.f_mkfs]
    if x.f_mkfs_res ≠ FR_OK then
      (s, t1 ++ [Call.log Msg.mkfs_failed])
    else
      let t2 := t1 ++ [Call.log Msg.mounting_volume, Call.f_mount]
      if x.f_mount_res ≠ FR_OK then
        ({ s with fs_mounted := false }, t2 ++ [Call.log Msg.mount_failed])
      else
        ({ s with fs_mounted := true }, t2 ++ [Call.log Msg.done])

def test_write (x : Ext) (s : State) : State × List Call :=
  let t1 := [Call.f_open FileName.log_data_txt
    (FA_OPEN_APPEND ||| FA_OPEN_ALWAYS ||| FA_WRITE ||| FA_READ)]
  if x.f_open_res ≠ FR_OK then
    if !s.m_usb_connected then
      (s, t1 ++ [Call.log (Msg.unable_to_open_log_data x.f_open_res), Call.log_flush])
    else
      (s, t1 ++ [Call.log_flush])
  else
    let s1 := { s with record_number := (s.record_number + 1) % U32 }
    let t2 := t1 ++ [Call.f_tell,
      Call.f_write ((s1.record_number + 10000000) % U32), Call.f_close]
    if x.f_close_res ≠ 0 then
      (s1, t2 ++ [Call.log (Msg.f_close_failed x.f_close_res s1.record_number),
        Call.log (Msg.wrote_data_record s1.record_number)])
    else
      (s1, t2 ++ [Call.log (Msg.wrote_data_record s1.record_number)])

/-- The `do ... while (fno.fname[0])` loop of `fatfs_ls`, run on the results the
successive `f_readdir` calls return; the second component is `entries_count`
when the loop ends normally and `none` when a read fails. -/
def fatfs_ls_loop : List (Nat × FILINFO) → Nat → List Call × Option Nat
  | [], cnt => ([Call.f_readdir, Call.log_flush], some ((cnt + 1) % U32))
  | (res, fno) :: rest, cnt =>
    if res ≠ FR_OK then
      ([Call.f_readdir, Call.log (Msg.directory_read_failed res)], none)
    else if fno.fname ≠ [] then
      let line :=
        if fno.fattrib &&& AM_DIR ≠ 0 then Call.log (Msg.dir_line fno.fname)
        else Call.log (Msg.file_line fno.fsize fno.fname)
      let r := fatfs_ls_loop rest ((cnt + 1) % U32)
      ([Call.f_readdir, line, Call.log_flush] ++ r.1, r.2)
    else
      ([Call.f_readdir, Call.log_flush], some ((cnt + 1) % U32))

def fatfs_ls (x : Ext) (s : State) : State × List Call :=
  if s.m_usb_connected then
    (s, [Call.log Msg.usb_busy])
  else
    let t1 := [Call.log Msg.listing_directory, Call.f_opendir]
    if x.f_opendir_res ≠ FR_OK then
      (s, t1 ++ [Call.log (Msg.directory_listing_failed x.f_opendir_res)])
    else
      let r := fatfs_ls_loop x.dir_reads 0
      match r.2 with
      | none => (s, t1 ++ r.1)
      | some n => (s, t1 ++ r.1 ++ [Call.log (Msg.entries_count n)])

def fatfs_file_create (x : Ext) (s : State) : State × List Call :=
  if s.m_usb_connected then
    (s, [Call.log Msg.usb_busy])
  else
    let t1 := [Call.rand, Call.log (Msg.creating_random_file x.rand_val), Call.log_flush,
      Call.f_open (FileName.random_txt x.rand_val) (FA_CREATE_ALWAYS ||| FA_WRITE)]
    if x.f_open_res ≠ FR_OK then
      (s, t1 ++ [Call.log (Msg.unable_to_create_file x.f_open_res), Call.log_flush])
    else
      let t2 := t1 ++ [Call.f_close]
      if x.f_close_res ≠ FR_OK then
        (s, t2 ++ [Call.log (Msg.unable_to_close_file x.f_close_res), Call.log_flush])
      else
        (s, t2 ++ [Call.log Msg.created_done])

def fatfs_uninit (s : State) : State × List Call :=
  ({ s with fs_mounted := false },
    [Call.log Msg.uninitializing_disk, Call.disk_uninitialize_0])

/-! ## Event handlers -/

open app_usbd_event_type_t in
def usbd_user_ev_handler (event : app_usbd_event_type_t) (x : Ext) (s : State) :
    State × List Call :=
  match event with
  | APP_USBD_EVT_DRV_SUSPEND =>
    (s, [Call.bsp_board_led_off LED_USB_RESUME, Call.log Msg.evt_drv_suspend])
  | APP_USBD_EVT_DRV_RESUME =>
    (s, [Call.bsp_board_led_on LED_USB_RESUME, Call.log Msg.evt_drv_resume])
  | APP_USBD_EVT_STARTED =>
    (s, [Call.bsp_board_led_on LED_USB_START, Call.log Msg.evt_started])
  | APP_USBD_EVT_STOPPED =>
    let r := fatfs_init x s
    ({ r.2.1 with usbd_enabled := false },
      r.2.2 ++ [Call.app_usbd_disable, Call.bsp_board_leds_off, Call.log Msg.evt_stopped])
  | APP_USBD_EVT_POWER_DETECTED =>
    if !s.usbd_enabled then
      let r := fatfs_uninit s
      ({ r.1 with usbd_enabled := true },
        [Call.log Msg.usb_power_detected] ++ r.2 ++ [Call.app_usbd_enable])
    else
      (s, [Call.log Msg.usb_power_detected])
  | APP_USBD_EVT_POWER_REMOVED =>
    ({ s with usbd_started := false, m_usb_connected := false },
      [Call.log Msg.usb_power_removed, Call.app_usbd_stop])
  | APP_USBD_EVT_POWER_READY =>
    ({ s with usbd_started := true, m_usb_connected := true },
      [Call.log Msg.usb_ready, Call.app_usbd_start])
  | other => (s, [])

open Pin in
def button_event_handler (pin_no : Pin) (button_action : Nat) (s : State) :
    State × List Call :=
  match pin_no with
  | USB_TOGGLE_BUTTON =>
    if button_action = APP_BUTTON_PUSH then
      if s.m_usb_connected = false then
        if !s.usbd_enabled then
          ({ s with usbd_enabled := true, m_usb_connected := true },
            [Call.app_usbd_enable, Call.log Msg.enable_the_usb,
              Call.log (Msg.press_usb_toggle true)])
        else
          ({ s with m_usb_connected := true },
            [Call.log Msg.enable_the_usb, Call.log (Msg.press_usb_toggle true)])
      else
        ({ s with usbd_started := false, m_usb_connected := false },
          [Call.app_usbd_stop, Call.bsp_board_leds_off, Call.log Msg.disable_the_usb,
            Call.log (Msg.press_usb_toggle false)])
    else (s, [])
  | RANDOM_FILE_BUTTON =>
    if button_action = APP_BUTTON_PUSH then
      ((nrf_atomic_u32_or KEY_EV_RANDOM_FILE_MSK s).2, [Call.log Msg.press_random_file_button])
    else (s, [])
  | LIST_DIR_MSK_BUTTON =>
    if button_action = APP_BUTTON_PUSH then
      ((nrf_atomic_u32_or KEY_EV_LIST_DIR_MSK s).2, [Call.log Msg.press_random_file_button])
    else (s, [])
  | MKFS_BUTTON =>
    if button_action = APP_BUTTON_PUSH then
      ((nrf_atomic_u32_or KEY_EV_MKFS_MSK s).2, [Call.log Msg.press_mkfs_button])
    else (s, [])
  | other => (s, [Call.app_error_handler other])

/-! ## Scheduler and main loop -/

/-- `app_sched_event_put(NULL, 0, handler)`: the item is queued when the queue
has room; the result is true exactly then (`NRF_SUCCESS`). -/
def app_sched_event_put (w : WorkItem) (s : State) : Bool × State :=
  if s.sched_queue.length < SCHED_QUEUE_SIZE then
    (true, { s with sched_queue := s.sched_queue ++ [w] })
  else
    (false, s)

/-- One conditional submission of the main loop: `if (events & msk)
app_sched_event_put(NULL, 0, w);` with the returned code ignored. -/
def dispatch_if (events msk : Nat) (w : WorkItem) (r : State × List Call) :
    State × List Call :=
  if events &&& msk ≠ 0 then
    ((app_sched_event_put w r.1).2, r.2 ++ [Call.app_sched_event_put w])
  else r

/-- The key-event part of one pass of the `while (true)` loop of `main`: the
drain of `m_key_events` and the three conditional submissions. -/
def main_loop_dispatch (s : State) : State × List Call :=
  let d := nrf_atomic_u32_fetch_store 0 s
  let events := d.1
  dispatch_if events KEY_EV_MKFS_MSK WorkItem.fatfs_mkfs
    (dispatch_if events KEY_EV_LIST_DIR_MSK WorkItem.fatfs_ls
      (dispatch_if events KEY_EV_RANDOM_FILE_MSK WorkItem.test_write (d.2, [])))

/-- Running one work item taken from the scheduler queue. -/
def run_work_item (w : WorkItem) (x : Ext) (s : State) : State × List Call :=
  match w with
  | WorkItem.test_write => test_write x s
  | WorkItem.fatfs_ls => fatfs_ls x s
  | WorkItem.fatfs_mkfs => fatfs_mkfs x s

/-- The values of the globals at program start. -/
def power_on : State :=
  { m_key_events := 0, m_usb_connected := false, record_number := 0,
    usbd_enabled := false, usbd_started := false, fs_mounted := false,
    sched_queue := [] }

/-- The part of `main` before the loop that touches the modelled state, with
`USBD_POWER_DETECTION` true: `fatfs_init` and, when it succeeds, `fatfs_ls` and
`fatfs_file_create`.  `x` gives the library results for `fatfs_init` and
`fatfs_ls`, `y` those for `fatfs_file_create`. -/
def main_startup (x y : Ext) : State × List Call :=
  let r := fatfs_init x power_on
  if r.1 then
    let l := fatfs_ls x r.2.1
    let c := fatfs_file_create y l.1
    (c.1, r.2.2 ++ l.2 ++ c.2 ++ [Call.log Msg.example_started])
  else
    (r.2.1, r.2.2 ++ [Call.log Msg.example_started])

/-! ## Steps of the system -/

/-- A step of the system: a USB notification, a button event, or a work item run
by the scheduler. -/
inductive Step where
  | usb (event : app_usbd_event_type_t) (x : Ext)
  | button (pin_no : Pin) (button_action : Nat)
  | work (w : WorkItem) (x : Ext)
  deriving DecidableEq, Repr

def step (st : Step) (s : State) : State × List Call :=
  match st with
  | Step.usb e x => usbd_user_ev_handler e x s
  | Step.button p a => button_event_handler p a s
  | Step.work w x => run_work_item w x s

/-- Runs the steps in order, collecting the calls made. -/
def run : List Step → State → State × List Call
  | [], s => (s, [])
  | st :: rest, s =>
    let r := step st s
    let q := run rest r.1
    (q.1, r.2 ++ q.2)

/-- The condition "host export active" : the USB stack is enabled or started, or
`m_usb_connected` is true. -/
def host_export_active (s : State) : Bool :=
  s.usbd_enabled || s.usbd_started || s.m_usb_connected

/-- An `Ext` in which every library call succeeds and the directory is empty. -/
def ext_ok : Ext :=
  { disk_status := 0, f_mount_res := FR_OK, f_mkfs_res := FR_OK, f_open_res := FR_OK,
    f_close_res := FR_OK, f_opendir_res := FR_OK, dir_reads := [], rand_val := 0 }

/-- The state in which `main` enters its loop when every library call of the
start-up succeeds: the local filesystem is mounted and the USB stack is off. -/
def started_up : State := (main_startup ext_ok ext_ok).1

/-- A push of the USB toggle button. -/
def toggle_push : Step := Step.button Pin.USB_TOGGLE_BUTTON APP_BUTTON_PUSH

/-- The four arbitration flags of a state: `m_usb_connected`, USB stack enabled,
USB export started, local filesystem mounted. -/
def arbitration (s : State) : Bool × Bool × Bool × Bool :=
  (s.m_usb_connected, s.usbd_enabled, s.usbd_started, s.fs_mounted)

/-- The button whose push raises the key event that the main loop answers by
submitting `w`. -/
def button_of : WorkItem → Pin
  | WorkItem.test_write => Pin.RANDOM_FILE_BUTTON
  | WorkItem.fatfs_ls => Pin.LIST_DIR_MSK_BUTTON
  | WorkItem.fatfs_mkfs => Pin.MKFS_BUTTON

/-- The mask the main loop tests before it submits `w`. -/
def mask_of : WorkItem → Nat
  | WorkItem.test_write => KEY_EV_RANDOM_FILE_MSK
  | WorkItem.fatfs_ls => KEY_EV_LIST_DIR_MSK
  | WorkItem.fatfs_mkfs => KEY_EV_MKFS_MSK

/-- The OR of the masks of a list of raised kinds. -/
def union_mask : List WorkItem → Nat
  | [] => 0
  | k :: ks => mask_of k ||| union_mask ks

/-- One button push per listed kind, in order. -/
def pushes (ks : List WorkItem) : List Step :=
  ks.map fun k => Step.button (button_of k) APP_BUTTON_PUSH

/-- The drain of the main loop. -/
def drain (s : State) : Nat × State := nrf_atomic_u32_fetch_store 0 s

/-- The calls into FatFS and the disk layer. -/
def is_storage_call : Call → Bool
  | Call.diskio_blockdev_register => true
  | Call.disk_initialize_0 => true
  | Call.disk_uninitialize_0 => true
  | Call.f_mount => true
  | Call.f_mkfs => true
  | Call.f_open _ _ => true
  | Call.f_tell => true
  | Call.f_write _ => true
  | Call.f_close => true
  | Call.f_opendir => true
  | Call.f_readdir => true
  | _ => false

/-- Replays a trace against the enabled flag of the USB stack (`en` is the flag
before the first call): true when no `app_usbd_enable` is made while the stack
is enabled. -/
def enable_calls_ok : Bool → List Call → Bool
  | _, [] => true
  | en, Call.app_usbd_enable :: t => !en && enable_calls_ok true t
  | _, Call.app_usbd_disable :: t => enable_calls_ok false t
  | en, _ :: t => enable_calls_ok en t

/-- The host-initiated start of a session: the power-detected notification
followed by the power-ready notification. -/
def session_start (x y : Ext) : List Step :=
  [Step.usb app_usbd_event_type_t.APP_USBD_EVT_POWER_DETECTED x,
    Step.usb app_usbd_event_type_t.APP_USBD_EVT_POWER_READY y]

/-! ## One pass of the main loop -/

/-- The loop of `app_sched_execute()` over the queued work items `q`, in FIFO
order: each item is taken off the queue and run to completion; `xs` gives the
library results for the successive items (`ext_ok` once they are used up). -/
def app_sched_execute_loop : List WorkItem → List Ext → State → State × List Call
  | [], _, s => (s, [])
  | w :: q, xs, s =>
    let r := run_work_item w (xs.headD ext_ok) { s with sched_queue := q }
    let t := app_sched_execute_loop q xs.tail r.1
    (t.1, r.2 ++ t.2)

/-- `app_sched_execute()`: runs every queued work item. -/
def app_sched_execute (xs : List Ext) (s : State) : State × List Call :=
  app_sched_execute_loop s.sched_queue xs s

/-- `while (app_usbd_event_queue_process()) {}`: the queued USB notifications
are handed to `usbd_user_ev_handler` one after the other. -/
def usbd_event_queue_process (usb : List (app_usbd_event_type_t × Ext)) (s : State) :
    State × List Call :=
  run (usb.map fun p => Step.usb p.1 p.2) s

/-- One pass of the `while (true)` loop of `main`: drain and submissions, USB
event queue, scheduler. -/
def main_loop_pass (usb : List (app_usbd_event_type_t × Ext)) (xs : List Ext) (s : State) :
    State × List Call :=
  let a := main_loop_dispatch s
  let b := usbd_event_queue_process usb a.1
  let c := app_sched_execute xs b.1
  (c.1, a.2 ++ b.2 ++ c.2)

/-- What happens while `main` loops, in the model where only the main loop
submits work items: a button event between two passes, or one pass. -/
inductive LoopEvent where
  | button (pin_no : Pin) (button_action : Nat)
  | pass (usb : List (app_usbd_event_type_t × Ext)) (xs : List Ext)
  deriving DecidableEq, Repr

/-- The state at the top of the loop after the listed events. -/
def loop_run : List LoopEvent → State → State
  | [], s => s
  | LoopEvent.button p a :: rest, s => loop_run rest (button_event_handler p a s).1
  | LoopEvent.pass usb xs :: rest, s => loop_run rest (main_loop_pass usb xs s).1

/-- The pass up to and including the first conditional submission. -/
def dispatch_first (s : State) : State × List Call :=
  dispatch_if s.m_key_events KEY_EV_RANDOM_FILE_MSK WorkItem.test_write
    ((nrf_atomic_u32_fetch_store 0 s).2, [])

/-- The pass up to and including the second conditional submission. -/
def dispatch_second (s : State) : State × List Call :=
  dispatch_if s.m_key_events KEY_EV_LIST_DIR_MSK WorkItem.fatfs_ls (dispatch_first s)

/-- A state whose scheduler queue is full, with the three key events pending. -/
def queue_full : State :=
  { m_key_events := 7, m_usb_connected := false, record_number := 0,
    usbd_enabled := false, usbd_started := false, fs_mounted := false,
    sched_queue := List.replicate SCHED_QUEUE_SIZE WorkItem.fatfs_ls }

/-! ## Directory listing -/

/-- The line the listing is said to print for an entry: the directory form when
the entry has the `AM_DIR` attribute, otherwise size and name. -/
def listing_line (f : FILINFO) : Call :=
  if f.fattrib &&& AM_DIR ≠ 0 then Call.log (Msg.dir_line f.fname)
  else Call.log (Msg.file_line f.fsize f.fname)

/-- The results of `f_readdir` on a directory with the given entries: each entry
with `FR_OK`, then `fin`, the entry that ends the directory. -/
def readdir_results (entries : List FILINFO) (fin : FILINFO) : List (Nat × FILINFO) :=
  entries.map (fun f => (FR_OK, f)) ++ [(FR_OK, fin)]

/-- A directory entry of the examples: a plain file or a directory. -/
def sample_entry (name : Nat) (dir : Bool) : FILINFO :=
  { fname := [name], fattrib := if dir then AM_DIR else 0, fsize := 100 }

/-- The calls the listing is said to make for the entries of a directory: one
read, one line and one flush per entry, in directory order. -/
def listing_calls : List FILINFO → List Call
  | [] => []
  | f :: rest => Call.f_readdir :: listing_line f :: Call.log_flush :: listing_calls rest

/-- The log lines that show a directory entry. -/
def is_listing_line : Call → Bool
  | Call.log (Msg.dir_line _) => true
  | Call.log (Msg.file_line _ _) => true
  | _ => false

/-- The state at the top of a pass reached by the listed events, with `m` as the
value of `m_key_events` that the pass drains. -/
def at_pass (evs : List LoopEvent) (s0 : State) (m : Nat) : State :=
  { loop_run evs s0 with m_key_events := m }

/-- The entries of the example directory: a file, a directory, a file. -/
def sample_entries : List FILINFO :=
  [sample_entry 97 false, sample_entry 98 true, sample_entry 99 false]

/-- Library results for a listing of the example directory. -/
def sample_dir : Ext :=
  { ext_ok with dir_reads := readdir_results sample_entries (FILINFO.mk [] 0 0) }

/-- The control calls into the USB stack. -/
def is_usbd_call : Call → Bool
  | Call.app_usbd_enable => true
  | Call.app_usbd_disable => true
  | Call.app_usbd_start => true
  | Call.app_usbd_stop => true
  | _ => false

end UsbdMsc

namespace UsbdMsc

/-! ## Ownership -/

/-- C1: from the state in which `main` enters its loop with the filesystem
mounted, one push of the USB toggle button leaves the filesystem mounted while
the USB stack is enabled and `m_usb_connected` is true, so the two ownerships
hold together; the power-detected notification, handled in the same state,
uninitialises the disk before it enables the stack. -/
theorem C1_toggle_push_gives_dual_ownership :
    started_up.fs_mounted = true ∧ host_export_active started_up = false ∧
    host_export_active (run [toggle_push] started_up).1 = true ∧
    (run [toggle_push] started_up).1.fs_mounted = true ∧
    (run [toggle_push] started_up).1.m_usb_connected = true ∧
    (run [toggle_push] started_up).1.usbd_enabled = true ∧
    Call.disk_uninitialize_0 ∉ (run [toggle_push] started_up).2 ∧
    (run [Step.usb app_usbd_event_type_t.APP_USBD_EVT_POWER_DETECTED ext_ok]
      started_up).1.fs_mounted = false := by
  decide

/-- C2: with `m_usb_connected` true (after a toggle push from the start-up
state) the work item `test_write` logs no busy line, calls `f_open` for writing,
`f_write` and `f_close`, and increments `record_number`; `fatfs_ls` and
`fatfs_mkfs` run in the same state only log the busy line. -/
theorem C2_test_write_runs_while_host_owned :
    (run [toggle_push] started_up).1.m_usb_connected = true ∧
    (test_write ext_ok (run [toggle_push] started_up).1).2 =
      [Call.f_open FileName.log_data_txt 0x33, Call.f_tell, Call.f_write 10000001,
        Call.f_close, Call.log (Msg.wrote_data_record 1)] ∧
    (run [toggle_push] started_up).1.record_number = 0 ∧
    (test_write ext_ok (run [toggle_push] started_up).1).1.record_number = 1 ∧
    fatfs_ls ext_ok (run [toggle_push] started_up).1 =
      ((run [toggle_push] started_up).1, [Call.log Msg.usb_busy]) ∧
    fatfs_mkfs ext_ok (run [toggle_push] started_up).1 =
      ((run [toggle_push] started_up).1, [Call.log Msg.usb_busy]) := by
  decide

/-! ## Key events -/

theorem mask_of_lt (k : WorkItem) : mask_of k < U32 := by
  cases k <;> decide

theorem union_mask_lt (ks : List WorkItem) : union_mask ks < U32 := by
  induction ks with
  | nil => decide
  | cons k ks ih => exact Nat.or_lt_two_pow (mask_of_lt k) ih

theorem push_state (k : WorkItem) (s : State) :
    (step (Step.button (button_of k) APP_BUTTON_PUSH) s).1 =
      { s with m_key_events := (s.m_key_events ||| mask_of k) % U32 } := by
  cases k <;> rfl

theorem run_pushes_state (ks : List WorkItem) (s : State) (h : s.m_key_events < U32) :
    (run (pushes ks) s).1 = { s with m_key_events := s.m_key_events ||| union_mask ks } := by
  induction ks generalizing s with
  | nil => simp [pushes, run, union_mask]
  | cons k ks ih =>
    have hk : s.m_key_events ||| mask_of k < U32 := Nat.or_lt_two_pow h (mask_of_lt k)
    have ih2 := ih { s with m_key_events := (s.m_key_events ||| mask_of k) % U32 }
      (Nat.mod_lt _ (by decide))
    simp only [pushes, List.map_cons, run, push_state] at ih2 ⊢
    rw [ih2]
    simp [union_mask, Nat.mod_eq_of_lt hk, Nat.or_assoc]

theorem union_mask_perm {ks ks2 : List WorkItem} (h : ks.Perm ks2) :
    union_mask ks = union_mask ks2 := by
  induction h with
  | nil => rfl
  | cons k _ ih => simp [union_mask, ih]
  | swap a b l =>
    simp only [union_mask]
    rw [← Nat.or_assoc, ← Nat.or_assoc, Nat.or_comm (mask_of b)]
  | trans _ _ ih1 ih2 => exact ih1.trans ih2

theorem or_and_absorb (b a k : Nat) (h : a &&& k = k) : (b ||| a) &&& k = k := by
  apply Nat.eq_of_testBit_eq
  intro i
  have hi := congrArg (fun n => n.testBit i) h
  simp only [Nat.testBit_and, Nat.testBit_or] at hi ⊢
  cases hb : b.testBit i <;> cases ha : a.testBit i <;> cases hk : k.testBit i <;>
    simp_all

theorem union_mask_mem (ks : List WorkItem) (k : WorkItem) (h : k ∈ ks) :
    union_mask ks &&& mask_of k = mask_of k := by
  induction ks with
  | nil => cases h
  | cons a ks ih =>
    simp only [union_mask]
    rcases List.mem_cons.mp h with rfl | h2
    · rw [Nat.or_comm]
      exact or_and_absorb _ _ _ (Nat.and_self _)
    · exact or_and_absorb _ _ _ (ih h2)

theorem mask_of_ne_zero (k : WorkItem) : mask_of k ≠ 0 := by
  cases k <;> decide

theorem union_mask_replicate (k : WorkItem) (n : Nat) :
    union_mask (List.replicate (n + 1) k) = mask_of k := by
  induction n with
  | zero => simp [List.replicate, union_mask]
  | succ n ih =>
    rw [List.replicate_succ, union_mask, ih, Nat.or_self]

/-- C3: after any sequence of raises of the three kinds, made from any 32-bit
value of `m_key_events`, the drain returns the previous mask OR-ed with the
masks of all raised kinds and leaves `m_key_events` at 0; the bit of every
raised kind is set in the snapshot, any reordering of the raises gives the same
snapshot, and a drain right after returns 0. -/
theorem C3_no_event_loss (s : State) (ks : List WorkItem) (h : s.m_key_events < U32) :
    (drain (run (pushes ks) s).1).1 = s.m_key_events ||| union_mask ks ∧
    (drain (run (pushes ks) s).1).2.m_key_events = 0 ∧
    (∀ k ∈ ks, (drain (run (pushes ks) s).1).1 &&& mask_of k ≠ 0) ∧
    (∀ ks2 : List WorkItem, ks2.Perm ks →
      (drain (run (pushes ks2) s).1).1 = (drain (run (pushes ks) s).1).1) ∧
    (drain (drain (run (pushes ks) s).1).2).1 = 0 := by
  have e : ∀ l : List WorkItem,
      (drain (run (pushes l) s).1).1 = s.m_key_events ||| union_mask l := by
    intro l
    rw [run_pushes_state l s h]
    rfl
  refine ⟨e ks, rfl, ?_, ?_, rfl⟩
  · intro k hk
    rw [e ks, or_and_absorb _ _ _ (union_mask_mem ks k hk)]
    exact mask_of_ne_zero k
  · intro ks2 hp
    rw [e ks, e ks2, union_mask_perm hp]

/-- C3 at a concrete input: mask 4 pending, then list, random-file, list raised. -/
theorem C3_no_event_loss_witness :
    (drain (run (pushes [WorkItem.fatfs_ls, WorkItem.test_write, WorkItem.fatfs_ls])
      { power_on with m_key_events := 4 }).1).1 = 7 :=
  (C3_no_event_loss { power_on with m_key_events := 4 }
    [WorkItem.fatfs_ls, WorkItem.test_write, WorkItem.fatfs_ls] (by decide)).1

theorem dispatch_of_mask (k : WorkItem) (s : State) (h : s.m_key_events = mask_of k) :
    (main_loop_dispatch s).2 = [Call.app_sched_event_put k] ∧
    (main_loop_dispatch s).1 =
      (app_sched_event_put k { s with m_key_events := 0 }).2 := by
  cases k <;>
    simp +decide [main_loop_dispatch, dispatch_if, nrf_atomic_u32_fetch_store, h, mask_of,
      KEY_EV_RANDOM_FILE_MSK, KEY_EV_LIST_DIR_MSK, KEY_EV_MKFS_MSK, BTN_RANDOM_FILE,
      BTN_LIST_DIR, BTN_MKFS, U32]

/-- C4: from an empty mask, `N ≥ 1` pushes of the button of one kind make the
next pass of the main loop call `app_sched_event_put` exactly once, for the work
item of that kind, and for no other; the state after the pass is the state
before the pushes with that one submission applied. -/
theorem C4_coalescing (s : State) (k : WorkItem) (N : Nat) (hN : 1 ≤ N)
    (h0 : s.m_key_events = 0) :
    (main_loop_dispatch
      (run (List.replicate N (Step.button (button_of k) APP_BUTTON_PUSH)) s).1).2 =
      [Call.app_sched_event_put k] ∧
    (main_loop_dispatch
      (run (List.replicate N (Step.button (button_of k) APP_BUTTON_PUSH)) s).1).1 =
      (app_sched_event_put k s).2 := by
  obtain ⟨n, rfl⟩ : ∃ n, N = n + 1 := ⟨N - 1, by omega⟩
  have hp : List.replicate (n + 1) (Step.button (button_of k) APP_BUTTON_PUSH) =
      pushes (List.replicate (n + 1) k) := by
    simp [pushes]
  have hs := run_pushes_state (List.replicate (n + 1) k) s (by rw [h0]; decide)
  rw [union_mask_replicate, h0, Nat.zero_or] at hs
  rw [hp, hs]
  have d := dispatch_of_mask k { s with m_key_events := mask_of k } rfl
  refine ⟨d.1, ?_⟩
  rw [d.2]
  cases s
  simp_all [app_sched_event_put]

/-- C4 at a concrete input: three pushes of the list button after start-up. -/
theorem C4_coalescing_witness :
    (main_loop_dispatch
      (run (List.replicate 3 (Step.button Pin.LIST_DIR_MSK_BUTTON APP_BUTTON_PUSH))
        started_up).1).2 = [Call.app_sched_event_put WorkItem.fatfs_ls] :=
  (C4_coalescing started_up WorkItem.fatfs_ls 3 (by decide) (by decide)).1

/-! ## Session transitions -/

theorem fatfs_init_result (x : Ext) (t : State) :
    (fatfs_init x t).1 = (decide (x.disk_status = 0) && decide (x.f_mount_res = FR_OK)) := by
  unfold fatfs_init
  split_ifs <;> simp_all

theorem fatfs_init_state (x : Ext) (t : State) :
    (fatfs_init x t).2.1 =
      { t with fs_mounted := decide (x.disk_status = 0) && decide (x.f_mount_res = FR_OK) } := by
  unfold fatfs_init
  split_ifs <;> simp_all

/-- C5: when a host-owned session ends (power-removed, or a toggle push while
`m_usb_connected` is true) and the stopped notification is then handled with a
failing mount (disk initialisation fails or `f_mount` returns an error), the
state is Detached: stack disabled, export stopped, `m_usb_connected` false,
filesystem not mounted; power-detected then power-ready bring it to HostOwned
with the same flags and the same calls as from the power-on state. -/
theorem C5_mount_failure_fallback (s : State) (e : Step) (w x y z : Ext)
    (he : e = Step.usb app_usbd_event_type_t.APP_USBD_EVT_POWER_REMOVED w ∨
      (e = toggle_push ∧ s.m_usb_connected = true))
    (hfail : x.disk_status ≠ 0 ∨ x.f_mount_res ≠ FR_OK) :
    arbitration
      (run [e, Step.usb app_usbd_event_type_t.APP_USBD_EVT_STOPPED x] s).1 =
      (false, false, false, false) ∧
    arbitration (run (session_start y z)
      (run [e, Step.usb app_usbd_event_type_t.APP_USBD_EVT_STOPPED x] s).1).1 =
      (true, true, true, false) ∧
    arbitration (run (session_start y z)
      (run [e, Step.usb app_usbd_event_type_t.APP_USBD_EVT_STOPPED x] s).1).1 =
      arbitration (run (session_start y z) power_on).1 ∧
    (run (session_start y z)
      (run [e, Step.usb app_usbd_event_type_t.APP_USBD_EVT_STOPPED x] s).1).2 =
      (run (session_start y z) power_on).2 := by
  have hb : (decide (x.disk_status = 0) && decide (x.f_mount_res = FR_OK)) = false := by
    rcases hfail with h | h <;> simp [h]
  have hm : ∀ t : State, (fatfs_init x t).2.1 = { t with fs_mounted := false } := by
    intro t
    rw [fatfs_init_state, hb]
  rcases he with rfl | ⟨rfl, hc⟩
  · simp [run, step, usbd_user_ev_handler, hm, arbitration, session_start, fatfs_uninit,
      power_on]
  · simp [run, step, toggle_push, button_event_handler, usbd_user_ev_handler, hm, hc,
      arbitration, session_start, fatfs_uninit, power_on, APP_BUTTON_PUSH]

/-- C5 at a concrete input: toggle-off after a toggle-on from start-up, then a
stopped notification whose `f_mount` reports no filesystem. -/
theorem C5_mount_failure_fallback_witness :
    arbitration
      (run [toggle_push, Step.usb app_usbd_event_type_t.APP_USBD_EVT_STOPPED
        { ext_ok with f_mount_res := FR_NO_FILESYSTEM }]
        (run [toggle_push] started_up).1).1 = (false, false, false, false) :=
  (C5_mount_failure_fallback (run [toggle_push] started_up).1 toggle_push ext_ok
    { ext_ok with f_mount_res := FR_NO_FILESYSTEM } ext_ok ext_ok
    (Or.inr ⟨rfl, by decide⟩) (Or.inr (by decide))).1

/-! ## Reformat -/

/-- C6, as stated, fails: in the power-on state (not connected, filesystem not
mounted) `fatfs_mkfs` calls `f_mkfs` and then `f_mount`. -/
theorem C6_mkfs_runs_when_not_mounted :
    power_on.m_usb_connected = false ∧ power_on.fs_mounted = false ∧
    Call.f_mkfs ∈ (fatfs_mkfs ext_ok power_on).2 ∧
    Call.f_mount ∈ (fatfs_mkfs ext_ok power_on).2 := by
  decide

/-- C6, amended: `fatfs_mkfs` calls `f_mkfs` exactly when `m_usb_connected` is
false, whatever the mount state, and `f_mount` exactly when moreover `f_mkfs`
returned `FR_OK`; its FatFS and disk calls are, in order, none when
`m_usb_connected` is true, `f_mkfs` alone when `f_mkfs` fails, and `f_mkfs`
followed by `f_mount` when `f_mkfs` returns `FR_OK`; when `m_usb_connected` is
true it only logs the busy line and changes nothing. -/
theorem C6_mkfs_gated_by_connection_only (x : Ext) (s : State) :
    (Call.f_mkfs ∈ (fatfs_mkfs x s).2 ↔ s.m_usb_connected = false) ∧
    (Call.f_mount ∈ (fatfs_mkfs x s).2 ↔
      (s.m_usb_connected = false ∧ x.f_mkfs_res = FR_OK)) ∧
    (fatfs_mkfs x s).2 = (fatfs_mkfs x { s with fs_mounted := !s.fs_mounted }).2 ∧
    (if s.m_usb_connected then fatfs_mkfs x s = (s, [Call.log Msg.usb_busy]) else True) ∧
    (fatfs_mkfs x s).2.filter is_storage_call =
      (if s.m_usb_connected then []
       else if x.f_mkfs_res = FR_OK then [Call.f_mkfs, Call.f_mount]
       else [Call.f_mkfs]) := by
  cases hc : s.m_usb_connected <;>
    by_cases h1 : x.f_mkfs_res = FR_OK <;>
    by_cases h2 : x.f_mount_res = FR_OK <;>
    simp +decide [fatfs_mkfs, hc, h1, h2, List.filter, is_storage_call]

/-! ## Toggle button -/

/-- C7: from the start-up state with the filesystem mounted, power-detected then
power-ready call `disk_uninitialize(0)`, `app_usbd_enable`, `app_usbd_start` and
end not mounted and started, while a push of the toggle button, with
`m_usb_connected` false, calls only `app_usbd_enable`: it neither uninitialises
the disk nor starts the export, and ends mounted and not started. -/
theorem C7_toggle_push_differs_from_session_start :
    started_up.m_usb_connected = false ∧
    (run (session_start ext_ok ext_ok) started_up).2.filter
      (fun c => is_storage_call c || decide (c = Call.app_usbd_enable) ||
        decide (c = Call.app_usbd_start)) =
      [Call.disk_uninitialize_0, Call.app_usbd_enable, Call.app_usbd_start] ∧
    arbitration (run (session_start ext_ok ext_ok) started_up).1 =
      (true, true, true, false) ∧
    (run [toggle_push] started_up).2.filter
      (fun c => is_storage_call c || decide (c = Call.app_usbd_enable) ||
        decide (c = Call.app_usbd_start)) = [Call.app_usbd_enable] ∧
    arbitration (run [toggle_push] started_up).1 = (true, true, false, true) := by
  decide

/-- A trace without `app_usbd_enable` and `app_usbd_disable` does not move the
replay of the enabled flag. -/
theorem enable_calls_ok_quiet (en : Bool) (t rest : List Call)
    (h : ∀ c ∈ t, c ≠ Call.app_usbd_enable ∧ c ≠ Call.app_usbd_disable) :
    enable_calls_ok en (t ++ rest) = enable_calls_ok en rest := by
  induction t with
  | nil => rfl
  | cons c t ih =>
    have hc := h c (List.mem_cons_self c t)
    have ht := ih (fun d hd => h d (List.mem_cons_of_mem c hd))
    cases c <;> simp_all [enable_calls_ok]

theorem fatfs_ls_loop_quiet (l : List (Nat × FILINFO)) (cnt : Nat) :
    ∀ c ∈ (fatfs_ls_loop l cnt).1, c ≠ Call.app_usbd_enable ∧ c ≠ Call.app_usbd_disable := by
  induction l generalizing cnt with
  | nil => simp [fatfs_ls_loop]
  | cons a l ih =>
    obtain ⟨res, fno⟩ := a
    intro c hc
    unfold fatfs_ls_loop at hc
    split_ifs at hc
    · simp at hc
      rcases hc with rfl | rfl <;> simp
    · simp only [List.mem_append] at hc
      rcases hc with hc | hc
      · simp at hc
        rcases hc with rfl | rfl | rfl <;> simp
      · exact ih _ c hc
    · simp only [List.mem_append] at hc
      rcases hc with hc | hc
      · simp at hc
        rcases hc with rfl | rfl | rfl <;> simp
      · exact ih _ c hc
    · simp at hc
      rcases hc with rfl | rfl <;> simp

theorem run_work_item_quiet (w : WorkItem) (x : Ext) (s : State) :
    (run_work_item w x s).1.usbd_enabled = s.usbd_enabled ∧
    ∀ c ∈ (run_work_item w x s).2, c ≠ Call.app_usbd_enable ∧ c ≠ Call.app_usbd_disable := by
  cases w
  · simp only [run_work_item, test_write]
    split_ifs <;> simp
  · simp only [run_work_item, fatfs_ls]
    split_ifs
    · simp
    · simp
    · have hq := fatfs_ls_loop_quiet x.dir_reads 0
      cases hr : (fatfs_ls_loop x.dir_reads 0).2 with
      | none =>
        refine ⟨rfl, ?_⟩
        intro c hc
        simp only [List.mem_append] at hc
        rcases hc with hc | hc
        · simp at hc
          rcases hc with rfl | rfl <;> simp
        · exact hq c hc
      | some n =>
        refine ⟨rfl, ?_⟩
        intro c hc
        simp only [List.mem_append] at hc
        rcases hc with (hc | hc) | hc
        · simp at hc
          rcases hc with rfl | rfl <;> simp
        · exact hq c hc
        · simp at hc
          subst hc
          simp
  · simp only [run_work_item, fatfs_mkfs]
    split_ifs <;> simp

/-- Every step keeps the replay of the enabled flag in line with the state and
makes no `app_usbd_enable` call while the stack is enabled. -/
theorem step_enable_calls_ok (st : Step) (s : State) (rest : List Call) :
    enable_calls_ok s.usbd_enabled ((step st s).2 ++ rest) =
      enable_calls_ok (step st s).1.usbd_enabled rest := by
  cases st with
  | usb e x =>
    cases e <;> simp only [step, usbd_user_ev_handler]
    · simp [enable_calls_ok]
    · simp [enable_calls_ok]
    · simp [enable_calls_ok]
    · unfold fatfs_init
      split_ifs <;> simp [enable_calls_ok]
    · cases he : s.usbd_enabled <;> simp [enable_calls_ok, fatfs_uninit, he]
    · simp [enable_calls_ok]
    · simp [enable_calls_ok]
    · simp
  | button p a =>
    cases p <;> simp only [step, button_event_handler]
    · cases he : s.usbd_enabled <;> cases hc : s.m_usb_connected <;>
        by_cases ha : a = APP_BUTTON_PUSH <;> simp [enable_calls_ok, he, hc, ha]
    · split_ifs <;> simp [enable_calls_ok, nrf_atomic_u32_or]
    · split_ifs <;> simp [enable_calls_ok, nrf_atomic_u32_or]
    · split_ifs <;> simp [enable_calls_ok, nrf_atomic_u32_or]
    · simp [enable_calls_ok]
  | work w x =>
    have h := run_work_item_quiet w x s
    simp only [step]
    rw [enable_calls_ok_quiet _ _ _ h.2, h.1]

theorem run_enable_calls_ok (steps : List Step) (s : State) :
    enable_calls_ok s.usbd_enabled (run steps s).2 = true := by
  induction steps generalizing s with
  | nil => rfl
  | cons st steps ih =>
    simp only [run]
    rw [step_enable_calls_ok]
    exact ih _

/-- C8: along every sequence of steps (toggle pushes, USB notifications, and
also the other buttons and the work items), from every state, no
`app_usbd_enable` is called while the USB stack is enabled; and two pushes of
the toggle button from a Detached state `d` call `app_usbd_enable` exactly once,
the first push sets `m_usb_connected`, the second calls `app_usbd_stop` and
clears `m_usb_connected`. -/
theorem C8_no_double_enable (steps : List Step) (s d : State)
    (hc : d.m_usb_connected = false) (he : d.usbd_enabled = false) :
    enable_calls_ok s.usbd_enabled (run steps s).2 = true ∧
    (run [toggle_push, toggle_push] d).2.count Call.app_usbd_enable = 1 ∧
    (run [toggle_push] d).2.count Call.app_usbd_enable = 1 ∧
    (run [toggle_push] d).1.m_usb_connected = true ∧
    Call.app_usbd_stop ∈ (run [toggle_push] (run [toggle_push] d).1).2 ∧
    (run [toggle_push, toggle_push] d).1.m_usb_connected = false := by
  refine ⟨run_enable_calls_ok steps s, ?_⟩
  simp [run, step, toggle_push, button_event_handler, hc, he, APP_BUTTON_PUSH]

/-- C8 at a concrete input: toggle, power-detected, power-ready, toggle, stopped,
toggle from the start-up state; and two pushes from the power-on state. -/
theorem C8_no_double_enable_witness :
    enable_calls_ok started_up.usbd_enabled
      (run [toggle_push,
        Step.usb app_usbd_event_type_t.APP_USBD_EVT_POWER_DETECTED ext_ok,
        Step.usb app_usbd_event_type_t.APP_USBD_EVT_POWER_READY ext_ok, toggle_push,
        Step.usb app_usbd_event_type_t.APP_USBD_EVT_STOPPED ext_ok, toggle_push]
        started_up).2 = true ∧
    (run [toggle_push, toggle_push] power_on).2.count Call.app_usbd_enable = 1 :=
  have h := C8_no_double_enable [toggle_push,
    Step.usb app_usbd_event_type_t.APP_USBD_EVT_POWER_DETECTED ext_ok,
    Step.usb app_usbd_event_type_t.APP_USBD_EVT_POWER_READY ext_ok, toggle_push,
    Step.usb app_usbd_event_type_t.APP_USBD_EVT_STOPPED ext_ok, toggle_push]
    started_up power_on rfl rfl
  ⟨h.1, h.2.1⟩

/-! ## USB notifications -/

/-- C9, as stated, fails: the handler of the stopped notification calls
`disk_initialize(0)` and `f_mount` itself, and the handler of power-detected
calls `disk_uninitialize(0)` itself. -/
theorem C9_stopped_handler_calls_disk_and_mount :
    Call.disk_initialize_0 ∈
      (usbd_user_ev_handler app_usbd_event_type_t.APP_USBD_EVT_STOPPED ext_ok power_on).2 ∧
    Call.f_mount ∈
      (usbd_user_ev_handler app_usbd_event_type_t.APP_USBD_EVT_STOPPED ext_ok power_on).2 ∧
    Call.disk_uninitialize_0 ∈
      (usbd_user_ev_handler app_usbd_event_type_t.APP_USBD_EVT_POWER_DETECTED ext_ok
        power_on).2 := by
  decide

/-- C9, amended: the FatFS and disk calls of `usbd_user_ev_handler` are, in
order: for the stopped notification those of `fatfs_init` (register the block
device, `disk_initialize(0)`, and `f_mount` when the disk initialised); for
power-detected `disk_uninitialize(0)` when the stack is not enabled; and none
for every other notification.  Taken together with the USB stack calls, in
order: the stopped handler makes the calls of `fatfs_init` and then
`app_usbd_disable`; power-detected makes `disk_uninitialize(0)` and then
`app_usbd_enable` when the stack is not enabled and nothing otherwise;
power-removed makes `app_usbd_stop` only, power-ready `app_usbd_start` only, and
every other notification none. -/
theorem C9_storage_calls_of_handler (e : app_usbd_event_type_t) (x : Ext) (s : State) :
    (usbd_user_ev_handler e x s).2.filter is_storage_call =
      (match e with
      | app_usbd_event_type_t.APP_USBD_EVT_STOPPED =>
        if x.disk_status = 0 then
          [Call.diskio_blockdev_register, Call.disk_initialize_0, Call.f_mount]
        else [Call.diskio_blockdev_register, Call.disk_initialize_0]
      | app_usbd_event_type_t.APP_USBD_EVT_POWER_DETECTED =>
        if s.usbd_enabled then [] else [Call.disk_uninitialize_0]
      | _ => []) ∧
    (usbd_user_ev_handler e x s).2.filter (fun c => is_storage_call c || is_usbd_call c) =
      (match e with
      | app_usbd_event_type_t.APP_USBD_EVT_STOPPED =>
        if x.disk_status = 0 then
          [Call.diskio_blockdev_register, Call.disk_initialize_0, Call.f_mount,
            Call.app_usbd_disable]
        else [Call.diskio_blockdev_register, Call.disk_initialize_0, Call.app_usbd_disable]
      | app_usbd_event_type_t.APP_USBD_EVT_POWER_DETECTED =>
        if s.usbd_enabled then [] else [Call.disk_uninitialize_0, Call.app_usbd_enable]
      | app_usbd_event_type_t.APP_USBD_EVT_POWER_REMOVED => [Call.app_usbd_stop]
      | app_usbd_event_type_t.APP_USBD_EVT_POWER_READY => [Call.app_usbd_start]
      | _ => []) := by
  cases e <;> simp only [usbd_user_ev_handler]
  · decide
  · decide
  · decide
  · unfold fatfs_init
    split_ifs <;> simp_all +decide [List.filter, is_storage_call, is_usbd_call]
  · cases he : s.usbd_enabled <;>
      simp +decide [fatfs_uninit, List.filter, is_storage_call, is_usbd_call]
  · decide
  · decide
  · decide

/-- C10: after `usbd_user_ev_handler e`, `m_usb_connected` is true for
power-ready (with `app_usbd_start` called and the export started), false for
power-removed (with `app_usbd_stop` called and the export stopped), and
unchanged for every other notification; power-detected leaves the stack
enabled, calling `app_usbd_enable` exactly when it was not enabled. -/
theorem C10_connection_flag (e : app_usbd_event_type_t) (x : Ext) (s : State) :
    (usbd_user_ev_handler e x s).1.m_usb_connected =
      (if e = app_usbd_event_type_t.APP_USBD_EVT_POWER_READY then true
       else if e = app_usbd_event_type_t.APP_USBD_EVT_POWER_REMOVED then false
       else s.m_usb_connected) ∧
    (e = app_usbd_event_type_t.APP_USBD_EVT_POWER_READY →
      (usbd_user_ev_handler e x s).1.usbd_started = true ∧
      (usbd_user_ev_handler e x s).2.filter (fun c => !(c matches Call.log _)) =
        [Call.app_usbd_start]) ∧
    (e = app_usbd_event_type_t.APP_USBD_EVT_POWER_REMOVED →
      (usbd_user_ev_handler e x s).1.usbd_started = false ∧
      (usbd_user_ev_handler e x s).2.filter (fun c => !(c matches Call.log _)) =
        [Call.app_usbd_stop]) ∧
    (e = app_usbd_event_type_t.APP_USBD_EVT_POWER_DETECTED →
      (usbd_user_ev_handler e x s).1.usbd_enabled = true ∧
      (usbd_user_ev_handler e x s).1.usbd_started = s.usbd_started ∧
      (usbd_user_ev_handler e x s).2.count Call.app_usbd_enable =
        (if s.usbd_enabled then 0 else 1)) := by
  cases e <;> simp only [usbd_user_ev_handler]
  · simp
  · simp
  · simp
  · simp [fatfs_init_state]
  · cases he : s.usbd_enabled <;> simp +decide [fatfs_uninit, he]
  · simp +decide
  · simp +decide
  · simp

/-! ## Scheduler queue -/

/-- C11, as stated, fails: with the queue full and the three key events pending,
`app_sched_event_put` rejects the item, and the pass of the main loop makes the
three submissions and nothing else (no log line, no error handler), leaves the
queue as it was and has cleared `m_key_events`: the items are dropped
silently. -/
theorem C11_full_queue_drops_silently :
    queue_full.sched_queue.length = SCHED_QUEUE_SIZE ∧
    (app_sched_event_put WorkItem.test_write queue_full).1 = false ∧
    (main_loop_dispatch queue_full).2 =
      [Call.app_sched_event_put WorkItem.test_write,
        Call.app_sched_event_put WorkItem.fatfs_ls,
        Call.app_sched_event_put WorkItem.fatfs_mkfs] ∧
    (main_loop_dispatch queue_full).1.sched_queue = queue_full.sched_queue ∧
    (main_loop_dispatch queue_full).1.m_key_events = 0 := by
  decide

/-- C11, amended: when the queue has no capacity, `app_sched_event_put` rejects
every submission and queues nothing, and the main loop ignores the returned
code: the calls of the pass are exactly the submissions of the pending kinds,
with no report, and the state after it is the state before with `m_key_events`
cleared, so the requested work items are dropped. -/
theorem C11_full_queue_submission_ignored (s : State)
    (hfull : SCHED_QUEUE_SIZE ≤ s.sched_queue.length) :
    (∀ w : WorkItem, app_sched_event_put w s = (false, s)) ∧
    (main_loop_dispatch s).1 = { s with m_key_events := 0 } ∧
    (main_loop_dispatch s).2 =
      (if s.m_key_events &&& KEY_EV_RANDOM_FILE_MSK ≠ 0 then
        [Call.app_sched_event_put WorkItem.test_write] else []) ++
      (if s.m_key_events &&& KEY_EV_LIST_DIR_MSK ≠ 0 then
        [Call.app_sched_event_put WorkItem.fatfs_ls] else []) ++
      (if s.m_key_events &&& KEY_EV_MKFS_MSK ≠ 0 then
        [Call.app_sched_event_put WorkItem.fatfs_mkfs] else []) := by
  have hp : ∀ (w : WorkItem) (t : State), t.sched_queue = s.sched_queue →
      app_sched_event_put w t = (false, t) := by
    intro w t ht
    simp [app_sched_event_put, ht, Nat.not_lt.mpr hfull]
  have hz : (nrf_atomic_u32_fetch_store 0 s) = (s.m_key_events, { s with m_key_events := 0 }) := by
    simp [nrf_atomic_u32_fetch_store]
  refine ⟨fun w => hp w s rfl, ?_, ?_⟩ <;>
    simp only [main_loop_dispatch, dispatch_if, hz] <;>
    by_cases h1 : s.m_key_events &&& KEY_EV_RANDOM_FILE_MSK = 0 <;>
    by_cases h2 : s.m_key_events &&& KEY_EV_LIST_DIR_MSK = 0 <;>
    by_cases h3 : s.m_key_events &&& KEY_EV_MKFS_MSK = 0 <;>
    simp [h1, h2, h3, hp]

/-- C11 at a concrete input: the full queue with the three key events pending. -/
theorem C11_full_queue_submission_ignored_witness :
    (main_loop_dispatch queue_full).1 = { queue_full with m_key_events := 0 } :=
  (C11_full_queue_submission_ignored queue_full (by decide)).2.1

theorem button_event_handler_queue (p : Pin) (a : Nat) (s : State) :
    (button_event_handler p a s).1.sched_queue = s.sched_queue := by
  cases p <;> simp only [button_event_handler]
  · cases he : s.usbd_enabled <;> cases hc : s.m_usb_connected <;>
      by_cases ha : a = APP_BUTTON_PUSH <;> simp [he, hc, ha]
  · split_ifs <;> simp [nrf_atomic_u32_or]
  · split_ifs <;> simp [nrf_atomic_u32_or]
  · split_ifs <;> simp [nrf_atomic_u32_or]

theorem usbd_user_ev_handler_queue (e : app_usbd_event_type_t) (x : Ext) (s : State) :
    (usbd_user_ev_handler e x s).1.sched_queue = s.sched_queue := by
  cases e <;> simp only [usbd_user_ev_handler]
  · simp [fatfs_init_state]
  · cases he : s.usbd_enabled <;> simp [fatfs_uninit]

theorem run_work_item_queue (w : WorkItem) (x : Ext) (s : State) :
    (run_work_item w x s).1.sched_queue = s.sched_queue := by
  cases w
  · simp only [run_work_item, test_write]
    split_ifs <;> simp
  · simp only [run_work_item, fatfs_ls]
    split_ifs
    · rfl
    · rfl
    · cases (fatfs_ls_loop x.dir_reads 0).2 <;> rfl
  · simp only [run_work_item, fatfs_mkfs]
    split_ifs <;> simp

theorem step_queue (st : Step) (s : State) : (step st s).1.sched_queue = s.sched_queue := by
  cases st with
  | usb e x => exact usbd_user_ev_handler_queue e x s
  | button p a => exact button_event_handler_queue p a s
  | work w x => exact run_work_item_queue w x s

theorem run_queue (steps : List Step) (s : State) :
    (run steps s).1.sched_queue = s.sched_queue := by
  induction steps generalizing s with
  | nil => rfl
  | cons st steps ih =>
    simp only [run]
    rw [ih, step_queue]

theorem app_sched_execute_loop_queue (q : List WorkItem) (xs : List Ext) (s : State)
    (h : s.sched_queue = q) : (app_sched_execute_loop q xs s).1.sched_queue = [] := by
  induction q generalizing xs s with
  | nil => simpa [app_sched_execute_loop] using h
  | cons w q ih =>
    simp only [app_sched_execute_loop]
    apply ih
    rw [run_work_item_queue]

theorem main_loop_pass_queue (usb : List (app_usbd_event_type_t × Ext)) (xs : List Ext)
    (s : State) : (main_loop_pass usb xs s).1.sched_queue = [] := by
  simp only [main_loop_pass, app_sched_execute]
  exact app_sched_execute_loop_queue _ _ _ rfl

theorem loop_run_queue (evs : List LoopEvent) (s : State) (h : s.sched_queue = []) :
    (loop_run evs s).sched_queue = [] := by
  induction evs generalizing s with
  | nil => exact h
  | cons ev evs ih =>
    cases ev with
    | button p a =>
      simp only [loop_run]
      exact ih _ (by rw [button_event_handler_queue, h])
    | pass usb xs =>
      simp only [loop_run]
      exact ih _ (main_loop_pass_queue usb xs s)

/-- C12: in the model where only the main loop submits work items, after every
sequence of button events and loop passes that starts with an empty queue, and
for every drained mask `m`, the pass finds the queue empty; the queue holds 0,
at most 1 and at most 2 items at the three submissions, each of which is
accepted, and at most 3 items after them and up to `app_sched_execute`, below
`SCHED_QUEUE_SIZE`; and the pass leaves the queue empty. -/
theorem C12_queue_never_fills (evs : List LoopEvent) (s0 : State) (m : Nat)
    (h0 : s0.sched_queue = []) :
    (loop_run evs s0).sched_queue = [] ∧
    main_loop_dispatch (at_pass evs s0 m) =
      dispatch_if m KEY_EV_MKFS_MSK WorkItem.fatfs_mkfs (dispatch_second (at_pass evs s0 m)) ∧
    (nrf_atomic_u32_fetch_store 0 (at_pass evs s0 m)).2.sched_queue.length = 0 ∧
    (dispatch_first (at_pass evs s0 m)).1.sched_queue.length ≤ 1 ∧
    (dispatch_second (at_pass evs s0 m)).1.sched_queue.length ≤ 2 ∧
    (app_sched_event_put WorkItem.test_write
      (nrf_atomic_u32_fetch_store 0 (at_pass evs s0 m)).2).1 = true ∧
    (app_sched_event_put WorkItem.fatfs_ls (dispatch_first (at_pass evs s0 m)).1).1 = true ∧
    (app_sched_event_put WorkItem.fatfs_mkfs (dispatch_second (at_pass evs s0 m)).1).1 = true ∧
    (main_loop_dispatch (at_pass evs s0 m)).1.sched_queue.length ≤ 3 ∧
    3 < SCHED_QUEUE_SIZE ∧
    (∀ (usb : List (app_usbd_event_type_t × Ext)) (xs : List Ext),
      (usbd_event_queue_process usb
        (main_loop_dispatch (at_pass evs s0 m)).1).1.sched_queue.length ≤ 3 ∧
      (main_loop_pass usb xs (at_pass evs s0 m)).1.sched_queue = []) := by
  have hq := loop_run_queue evs s0 h0
  have ht : (at_pass evs s0 m).sched_queue = [] := hq
  have hm : (at_pass evs s0 m).m_key_events = m := rfl
  have hd : main_loop_dispatch (at_pass evs s0 m) =
      dispatch_if m KEY_EV_MKFS_MSK WorkItem.fatfs_mkfs (dispatch_second (at_pass evs s0 m)) := rfl
  have hz : (nrf_atomic_u32_fetch_store 0 (at_pass evs s0 m)).2.sched_queue = [] := ht
  have h1 : (dispatch_first (at_pass evs s0 m)).1.sched_queue.length ≤ 1 := by
    simp only [dispatch_first, dispatch_if, app_sched_event_put, hz]
    split_ifs <;> simp_all
  have h2 : (dispatch_second (at_pass evs s0 m)).1.sched_queue.length ≤ 2 := by
    simp only [dispatch_second, dispatch_if, app_sched_event_put]
    split_ifs <;> simp_all <;> omega
  have h3 : (main_loop_dispatch (at_pass evs s0 m)).1.sched_queue.length ≤ 3 := by
    rw [hd]
    simp only [dispatch_if, app_sched_event_put]
    split_ifs <;> simp_all <;> omega
  refine ⟨hq, hd, by rw [hz]; rfl, h1, h2, ?_, ?_, ?_, h3, by decide, ?_⟩
  · simp [app_sched_event_put, hz, SCHED_QUEUE_SIZE]
  · have : (dispatch_first (at_pass evs s0 m)).1.sched_queue.length < SCHED_QUEUE_SIZE := by
      simp only [SCHED_QUEUE_SIZE]; omega
    simp [app_sched_event_put, this]
  · have : (dispatch_second (at_pass evs s0 m)).1.sched_queue.length < SCHED_QUEUE_SIZE := by
      simp only [SCHED_QUEUE_SIZE]; omega
    simp [app_sched_event_put, this]
  · intro usb xs
    refine ⟨?_, main_loop_pass_queue usb xs _⟩
    simp only [usbd_event_queue_process]
    rw [run_queue]
    exact h3

/-- C12 at a concrete input: list and reformat raised, a pass, the three kinds
raised, then a pass that drains mask 7. -/
theorem C12_queue_never_fills_witness :
    (main_loop_dispatch (at_pass
      [LoopEvent.button Pin.LIST_DIR_MSK_BUTTON APP_BUTTON_PUSH,
        LoopEvent.button Pin.MKFS_BUTTON APP_BUTTON_PUSH,
        LoopEvent.pass [] []] started_up 7)).1.sched_queue.length ≤ 3 :=
  (C12_queue_never_fills
    [LoopEvent.button Pin.LIST_DIR_MSK_BUTTON APP_BUTTON_PUSH,
      LoopEvent.button Pin.MKFS_BUTTON APP_BUTTON_PUSH,
      LoopEvent.pass [] []] started_up 7 (by decide)).2.2.2.2.2.2.2.2.1

/-! ## Directory listing -/

theorem fatfs_ls_loop_entries (entries : List FILINFO) (fin : FILINFO) (cnt : Nat)
    (hne : ∀ f ∈ entries, f.fname ≠ []) (hfin : fin.fname = []) :
    fatfs_ls_loop (readdir_results entries fin) cnt =
      (listing_calls entries ++ [Call.f_readdir, Call.log_flush],
        some ((cnt + entries.length + 1) % U32)) := by
  induction entries generalizing cnt with
  | nil => simp [readdir_results, fatfs_ls_loop, listing_calls, hfin]
  | cons f rest ih =>
    have hf : f.fname ≠ [] := hne f (List.mem_cons_self f rest)
    have ih2 := ih ((cnt + 1) % U32) (fun g hg => hne g (List.mem_cons_of_mem f hg))
    have hmod : ((cnt + 1) % U32 + rest.length + 1) % U32 =
        (cnt + (rest.length + 1) + 1) % U32 := by
      simp only [U32]
      omega
    simp only [readdir_results, List.map_cons, List.cons_append] at ih2 ⊢
    rw [fatfs_ls_loop]
    simp only [ne_eq, not_true_eq_false, if_false, hf, not_false_eq_true, if_true, ih2,
      hmod, List.length_cons]
    simp [listing_calls, listing_line]

theorem listing_calls_reads (entries : List FILINFO) :
    (listing_calls entries).count Call.f_readdir = entries.length := by
  induction entries with
  | nil => rfl
  | cons f rest ih =>
    have h1 : listing_line f ≠ Call.f_readdir := by
      unfold listing_line
      split_ifs <;> simp
    simp [listing_calls, List.count_cons, ih, h1]

theorem listing_calls_lines (entries : List FILINFO) :
    (listing_calls entries).filter is_listing_line = entries.map listing_line := by
  induction entries with
  | nil => rfl
  | cons f rest ih =>
    have h1 : is_listing_line (listing_line f) = true := by
      unfold listing_line
      split_ifs <;> rfl
    have h2 : is_listing_line Call.f_readdir = false := rfl
    have h3 : is_listing_line Call.log_flush = false := rfl
    simp [listing_calls, List.filter_cons, ih, h1, h2, h3]

/-- C13: with `m_usb_connected` false, `f_opendir` returning `FR_OK`, and
`f_readdir` returning the `n` entries of the directory (non-empty names) and
then an empty name, `fatfs_ls` returns after exactly `n + 1` reads, prints one
line per entry in directory order (the directory form exactly for the entries
with `AM_DIR`, otherwise size and name) and reports an entries count of
`n + 1`; the state is unchanged. -/
theorem C13_listing_count (s : State) (x : Ext) (entries : List FILINFO) (fin : FILINFO)
    (hc : s.m_usb_connected = false) (ho : x.f_opendir_res = FR_OK)
    (hr : x.dir_reads = readdir_results entries fin)
    (hne : ∀ f ∈ entries, f.fname ≠ []) (hfin : fin.fname = [])
    (hn : entries.length + 1 < U32) :
    (fatfs_ls x s).1 = s ∧
    (fatfs_ls x s).2 = [Call.log Msg.listing_directory, Call.f_opendir] ++
      listing_calls entries ++
      [Call.f_readdir, Call.log_flush, Call.log (Msg.entries_count (entries.length + 1))] ∧
    (fatfs_ls x s).2.count Call.f_readdir = entries.length + 1 ∧
    (fatfs_ls x s).2.filter is_listing_line = entries.map listing_line := by
  have hl := fatfs_ls_loop_entries entries fin 0 hne hfin
  rw [Nat.zero_add, Nat.mod_eq_of_lt hn] at hl
  have ht : fatfs_ls x s = (s, [Call.log Msg.listing_directory, Call.f_opendir] ++
      listing_calls entries ++
      [Call.f_readdir, Call.log_flush, Call.log (Msg.entries_count (entries.length + 1))]) := by
    simp [fatfs_ls, hc, ho, hr, hl]
  rw [ht]
  refine ⟨rfl, rfl, ?_, ?_⟩
  · simp [List.count_append, List.count_cons, listing_calls_reads]
  · simp [List.filter_append, List.filter_cons, listing_calls_lines, is_listing_line]

/-- C13 at a concrete input: a directory with a file, a directory and a file. -/
theorem C13_listing_count_witness :
    (fatfs_ls sample_dir started_up).2 =
      [Call.log Msg.listing_directory, Call.f_opendir,
        Call.f_readdir, Call.log (Msg.file_line 100 [97]), Call.log_flush,
        Call.f_readdir, Call.log (Msg.dir_line [98]), Call.log_flush,
        Call.f_readdir, Call.log (Msg.file_line 100 [99]), Call.log_flush,
        Call.f_readdir, Call.log_flush, Call.log (Msg.entries_count 4)] :=
  (C13_listing_count started_up sample_dir sample_entries (FILINFO.mk [] 0 0)
    (by decide) rfl rfl (by decide) rfl (by decide)).2.1

end UsbdMsc
